import Mathlib

/-!
Shallow embedding of the dojogo-api serverless handlers
(src/dojogo-api/*/__init__.py) and the database state they mutate.

Conventions of the embedding:
* The relational store is a `Db` value: one list of rows per table, plus
  the auto-increment counters the store would maintain.  Every SQL
  statement of the source becomes an explicit pure operation on `Db`.
* MySQL enforces the declared PRIMARY KEY / UNIQUE / FOREIGN KEY
  constraints by raising an error, which every handler catches and turns
  into a 500; the model renders those raises as explicit 500 branches.
* Python truthiness on optional strings/numbers (`if not x`) is modelled
  by `truthyStr` / `truthyNat` / `truthyInt` over `Option`.
* Timestamps are epoch seconds (`Int`); calendar days are day indices
  (`Int`).  `timedelta.days` is floor division, i.e. `Int.fdiv`.
* The JWT library (PyJWT) and the ISO-8601 datetime parser are external
  libraries; a token is modelled by the outcomes of the library calls the
  code makes on it (`Token.wellFormed`: decode-without-verification
  succeeds; `Token.fullyValid`: signature+audience+issuer verification
  succeeds), and an already-parsed timestamp stands for a well-formed
  datetime string.
* Azure blob storage is a finite map from blob path to blob size
  (`Blobs`); `StorageEnv` carries the connection-string configuration and
  whether SAS minting succeeds.
-/

namespace Dojogo

/-! ## Python truthiness helpers -/

def truthyStr : Option String → Bool
  | none => false
  | some s => s ≠ ""

def truthyNat : Option Nat → Bool
  | none => false
  | some n => n ≠ 0

def truthyInt : Option Int → Bool
  | none => false
  | some n => n ≠ 0

/-! ## Table rows -/

/-- A row of the `users` table (setup_database.py plus the migrations that
added `nickname` and `nickname_last_changed`). -/
structure UserRow where
  id : String
  name : String
  email : String
  nickname : Option String := none
  nicknameLastChanged : Option Int := none
  streak : Int := 0
  totalCount : Int := 0
  deriving DecidableEq

/-- A row of the tap-game `sessions` table; `createdDay` is
`DATE(created_at)` as a day index. -/
structure SessionRow where
  id : String
  userId : String
  tapCount : Int
  createdDay : Int
  deriving DecidableEq

/-- A row of the `devices` table. -/
structure DeviceRow where
  deviceId : Nat
  userId : String
  platform : String
  model : Option String
  osVersion : Option String
  appVersion : Option String
  hwId : String
  deriving DecidableEq

/-- A row of the `imu_sessions` table. -/
structure ImuSessionRow where
  imuSessionId : Nat
  userId : String
  deviceId : Nat
  startTime : Int
  nominalHz : Option Int
  coordFrame : String
  notes : Option String
  gameSessionId : Option String
  actionType : Option String
  endTime : Option Int := none
  actualMeanHz : Option Int := none
  deriving DecidableEq

/-- A row of the `imu_client_uploads` idempotency ledger. -/
structure ImuClientUploadRow where
  imuSessionId : Nat
  clientUploadId : String
  deriving DecidableEq

/-- A row of the `imu_session_files` table. -/
structure ImuFileRow where
  fileId : Nat
  imuSessionId : Nat
  purpose : String
  storageUrl : String
  contentType : Option String
  bytesSize : Nat
  sha256Hex : Option String
  numSamples : Option Nat
  deriving DecidableEq

/-- A row of the `imu_session_stats` table (at most one per session). -/
structure ImuStatsRow where
  imuSessionId : Nat
  samplesTotal : Int
  durationMs : Int
  meanHz : Int
  dtMsP50 : Option Int
  dtMsP95 : Option Int
  dtMsMax : Option Int
  droppedSeqPct : Option Int
  deriving DecidableEq

/-- The whole datastore plus its auto-increment counters. -/
structure Db where
  users : List UserRow := []
  sessions : List SessionRow := []
  devices : List DeviceRow := []
  imuSessions : List ImuSessionRow := []
  imuClientUploads : List ImuClientUploadRow := []
  imuFiles : List ImuFileRow := []
  imuStats : List ImuStatsRow := []
  nextDeviceId : Nat := 1
  nextImuSessionId : Nat := 1
  nextFileId : Nat := 1
  deriving DecidableEq

/-- `SELECT ... FROM users WHERE id = %s` then taking row `[0]`. -/
def lookupUser (db : Db) (uid : String) : Option UserRow :=
  db.users.find? (fun u => u.id == uid)

/-- `UPDATE users SET ... WHERE id = %s`: apply `f` to every row whose id
matches. -/
def updateUsers (db : Db) (uid : String) (f : UserRow → UserRow) : Db :=
  { db with users := db.users.map (fun u => if u.id == uid then f u else u) }

/-! ## GetLeaderboard (src/dojogo-api/GetLeaderboard/__init__.py) -/

/-- One row of the leaderboard projection (`name`, the selected metric as
`score`, and the other metric). -/
structure LeaderRow where
  name : String
  score : Int
  other : Int
  deriving DecidableEq

/-- The WHERE clause of the leaderboard query: `total_count > 0` for the
`total` board, `streak > 0` for the `streak` board. -/
def leaderFilter (t : String) (u : UserRow) : Bool :=
  if t == "total" then u.totalCount > 0 else u.streak > 0

/-- The ORDER BY comparison, descending on the selected metric with the
other metric as tiebreaker.  `true` means `a` may stay before `b`. -/
def leaderGe (t : String) (a b : UserRow) : Bool :=
  if t == "total" then
    a.totalCount > b.totalCount ||
      (a.totalCount == b.totalCount && a.streak ≥ b.streak)
  else
    a.streak > b.streak ||
      (a.streak == b.streak && a.totalCount ≥ b.totalCount)

/-- Insertion step of the ORDER BY sort. -/
def insertDesc (ge : UserRow → UserRow → Bool) (x : UserRow) :
    List UserRow → List UserRow
  | [] => [x]
  | y :: ys => if ge x y then x :: y :: ys else y :: insertDesc ge x ys

/-- The ORDER BY sort (any stable comparison sort; only the multiset of
selected rows matters to the handlers). -/
def sortDesc (ge : UserRow → UserRow → Bool) : List UserRow → List UserRow
  | [] => []
  | x :: xs => insertDesc ge x (sortDesc ge xs)

/-- The SELECT column list of the leaderboard query. -/
def projectLeader (t : String) (u : UserRow) : LeaderRow :=
  if t == "total" then ⟨u.name, u.totalCount, u.streak⟩
  else ⟨u.name, u.streak, u.totalCount⟩

/-- The full leaderboard query: WHERE, ORDER BY, `LIMIT %s`.  MySQL
rejects a negative LIMIT argument, which surfaces as a raised error
(`none`); `LIMIT 0` selects no rows. -/
def runLeaderboardQuery (t : String) (lim : Int) (users : List UserRow) :
    Option (List LeaderRow) :=
  if lim < 0 then none
  else some (((sortDesc (leaderGe t) (users.filter (leaderFilter t))).take
    lim.toNat).map (projectLeader t))

/-- Response of the leaderboard handler. -/
structure LbOut where
  status : Nat
  rows : List LeaderRow
  deriving DecidableEq

/-- `GetLeaderboard.main`: `type` defaults to `"total"`, `limit` defaults
to `100`; no clamping of the limit appears anywhere; an invalid type gives
400; a query error gives 500. -/
def getLeaderboard (typeParam : Option String) (limitParam : Option Int)
    (users : List UserRow) : LbOut :=
  let t := typeParam.getD "total"
  let lim : Int := limitParam.getD 100
  if ¬ (t = "total" ∨ t = "streak") then ⟨400, []⟩
  else
    match runLeaderboardQuery t lim users with
    | none => ⟨500, []⟩
    | some rows => ⟨200, rows⟩

/-! ## UpdateNickname (src/dojogo-api/UpdateNickname/__init__.py) -/

/-- Response of the nickname handler: status plus resulting store. -/
structure NickOut where
  status : Nat
  db : Db
  deriving DecidableEq

/-- `UpdateNickname.main` for an authenticated `userId` at wall-clock time
`now` (epoch seconds): truthiness and length validation, 404 on unknown
user, the 30-day cooldown (`(datetime.now() - last_changed).days`, i.e.
floor division of the elapsed seconds by 86400), the uniqueness check, and
finally `UPDATE ... SET nickname, nickname_last_changed = NOW()`. -/
def updateNickname (userId : String) (nickParam : Option String)
    (now : Int) (db : Db) : NickOut :=
  if ¬ truthyStr nickParam then ⟨400, db⟩
  else
    let nick := nickParam.getD ""
    if ¬ (3 ≤ nick.length ∧ nick.length ≤ 50) then ⟨400, db⟩
    else
      match lookupUser db userId with
      | none => ⟨404, db⟩
      | some u =>
        let proceed : Unit → NickOut := fun _ =>
          if db.users.any (fun v => v.nickname == some nick && v.id != userId)
          then ⟨409, db⟩
          else
            ⟨200, updateUsers db userId (fun w =>
              { w with nickname := some nick, nicknameLastChanged := some now })⟩
        match u.nicknameLastChanged with
        | none => proceed ()
        | some lc =>
          if (now - lc).fdiv 86400 < 30 then ⟨429, db⟩ else proceed ()

/-! ## CreateUser (src/dojogo-api/CreateUser/__init__.py) -/

/-- Response of the user-creation handler. -/
structure UserOut where
  status : Nat
  db : Db
  user : Option UserRow
  deriving DecidableEq

/-- `CreateUser.main` for an authenticated `userId` at time `now`:
`all([user_id, name, email])` truthiness validation, idempotent return of
an existing row with 200, otherwise an INSERT — with
`nickname_last_changed = NOW()` exactly when a nickname is supplied.  The
UNIQUE constraints on `email` and `nickname` make a conflicting INSERT
raise, which the handler's catch-all turns into a 500. -/
def createUser (userId : String) (name email nickname : Option String)
    (now : Int) (db : Db) : UserOut :=
  if ¬ (userId ≠ "" ∧ truthyStr name ∧ truthyStr email) then ⟨400, db, none⟩
  else
    match lookupUser db userId with
    | some u => ⟨200, db, some u⟩
    | none =>
      if db.users.any (fun v => v.email == email.getD "") then ⟨500, db, none⟩
      else if truthyStr nickname ∧
          db.users.any (fun v => v.nickname == some (nickname.getD "")) then
        ⟨500, db, none⟩
      else
        let row : UserRow :=
          if truthyStr nickname then
            { id := userId, name := name.getD "", email := email.getD "",
              nickname := nickname, nicknameLastChanged := some now,
              streak := 0, totalCount := 0 }
          else
            { id := userId, name := name.getD "", email := email.getD "",
              nickname := none, nicknameLastChanged := none,
              streak := 0, totalCount := 0 }
        let db' := { db with users := db.users ++ [row] }
        ⟨201, db', lookupUser db' userId⟩

/-! ## CreateSession (src/dojogo-api/CreateSession/__init__.py) -/

/-- `COUNT(*) FROM sessions WHERE user_id = %s AND DATE(created_at) = %s`. -/
def countSessions (db : Db) (uid : String) (day : Int) : Nat :=
  (db.sessions.filter (fun s => s.userId == uid && s.createdDay == day)).length

/-- Response of the tap-session handler. -/
structure TapOut where
  status : Nat
  db : Db
  user : Option UserRow
  deriving DecidableEq

/-- `CreateSession.main` for an authenticated `userId` on calendar day
`today`: validation, the session INSERT (its PRIMARY KEY and FOREIGN KEY
raise on conflict → 500), the total-count UPDATE, then the streak logic —
counted over the post-insert table, so "first session of the day" is
`today_count == 1`. -/
def createSession (userId : String) (sessionId : Option String)
    (tapCount : Option Int) (duration : Option Int) (today : Int)
    (db : Db) : TapOut :=
  if ¬ (truthyStr sessionId ∧ tapCount.isSome ∧ duration.isSome) then
    ⟨400, db, none⟩
  else
    let sid := sessionId.getD ""
    let tap := tapCount.getD 0
    if db.sessions.any (fun s => s.id == sid) then ⟨500, db, none⟩
    else if ¬ db.users.any (fun u => u.id == userId) then ⟨500, db, none⟩
    else
      let db1 := { db with sessions := db.sessions ++ [⟨sid, userId, tap, today⟩] }
      let db2 := updateUsers db1 userId (fun u =>
        { u with totalCount := u.totalCount + tap })
      let yesterdayCount := countSessions db2 userId (today - 1)
      let todayCount := countSessions db2 userId today
      let db3 :=
        if todayCount == 1 then
          if yesterdayCount > 0 then
            updateUsers db2 userId (fun u => { u with streak := u.streak + 1 })
          else
            updateUsers db2 userId (fun u => { u with streak := 1 })
        else db2
      ⟨201, db3, lookupUser db3 userId⟩

/-! ## Authentication (src/dojogo-api/shared/auth.py) -/

/-- A bearer token, modelled by the outcomes of the PyJWT calls the code
makes on it: `wellFormed` is whether `jwt.decode(token,
options=verify_signature False)` (and `get_unverified_header`) succeeds;
`fullyValid` is whether the full `jwt.decode` with the provider's RSA key,
audience and issuer succeeds; `kid` is the key id in the header; `sub` is
the subject claim of the payload. -/
structure Token where
  wellFormed : Bool
  fullyValid : Bool
  kid : String
  sub : Option String
  deriving DecidableEq

/-- `verify_token`: fetch the JWKS (a list of key ids), match the token's
`kid`; on a match, attempt full verification, but on any verification
error fall back to returning the unverified payload ("for debugging").
Returns the payload's subject, or `none` for a rejected token. -/
def verify_token (jwks : List String) (t : Token) : Option (Option String) :=
  if ¬ t.wellFormed then none
  else if jwks.contains t.kid then
    if t.fullyValid then some t.sub
    else if t.wellFormed then some t.sub else none
  else none

/-- What the `require_auth` decorator does with a request: short-circuit
with a 401 response, or run the wrapped handler with `req.user_id` set. -/
inductive AuthOutcome where
  | response (status : Nat)
  | handlerRun (userId : Option String)
  deriving DecidableEq

/-- `require_auth`: 401 when no token is presented; otherwise
`jwt.decode(token, options=verify_signature False)` — decode WITHOUT
signature verification — and on success run the handler with the decoded
subject; 401 only when even the unverified decode fails.  `fullyValid` is
never consulted on this path. -/
def require_auth (tok : Option Token) : AuthOutcome :=
  match tok with
  | none => .response 401
  | some t =>
    if t.wellFormed then .handlerRun t.sub
    else .response 401

/-! ## CreateImuSession (src/dojogo-api/CreateImuSession/__init__.py) -/

/-- The `device_info` object of the request body. -/
structure DeviceInfo where
  platform : Option String := none
  model : Option String := none
  osVersion : Option String := none
  appVersion : Option String := none
  hwId : Option String := none
  deriving DecidableEq

/-- The IMU-session-create request body.  `startTimeUtc` stands for an
already-parsed ISO-8601 timestamp (`none` = field absent/empty); the
400 branch for an unparsable string is subsumed in the library and not
distinguished here. -/
structure ImuCreateBody where
  clientUploadId : Option String := none
  deviceInfo : Option DeviceInfo := none
  startTimeUtc : Option Int := none
  nominalHz : Option Int := none
  coordFrame : String := "device"
  notes : Option String := none
  gameSessionId : Option String := none
  actionType : Option String := none
  deriving DecidableEq

/-- The storage environment: the `AZURE_STORAGE_CONNECTION_STRING`
setting, and whether container access / SAS generation succeeds. -/
structure StorageEnv where
  connString : Option String
  mintOk : Bool
  deriving DecidableEq

/-- Response of the IMU-session-create handler: status code, resulting
store, and the `imu_session_id` of the response body (absent on error). -/
structure ImuCreateOut where
  status : Nat
  db : Db
  sessionId : Option Nat
  deriving DecidableEq

/-- `SELECT device_id FROM devices WHERE user_id = %s AND hw_id = %s`,
taking row `[0]`. -/
def findDevice (db : Db) (uid hw : String) : Option DeviceRow :=
  db.devices.find? (fun d => d.userId == uid && d.hwId == hw)

/-- Step 1 of `CreateImuSession.main`: upsert the device by
`(user_id, hw_id)` — UPDATE the descriptive fields when found, otherwise
INSERT and re-SELECT the generated id.  Returns the device id and the
store after the statement(s). -/
def upsertDevice (db : Db) (uid : String) (di : DeviceInfo) : Nat × Db :=
  let hw := di.hwId.getD "unknown"
  let platform := di.platform.getD ""
  match findDevice db uid hw with
  | some d =>
    (d.deviceId,
      { db with devices := db.devices.map (fun e =>
          if e.deviceId == d.deviceId then
            { e with
              platform := platform
              model := di.model
              osVersion := di.osVersion
              appVersion := di.appVersion }
          else e) })
  | none =>
    let row : DeviceRow :=
      { deviceId := db.nextDeviceId, userId := uid, platform := platform,
        model := di.model, osVersion := di.osVersion,
        appVersion := di.appVersion, hwId := hw }
    let db' := { db with
                 devices := db.devices ++ [row]
                 nextDeviceId := db.nextDeviceId + 1 }
    ((findDevice db' uid hw).map (·.deviceId) |>.getD 0, db')

/-- Step 2 of `CreateImuSession.main`: the idempotency lookup —
`imu_sessions JOIN imu_client_uploads` on the session id, filtered by
`(user_id, client_upload_id)`, taking row `[0]`. -/
def lookupSessionByUpload (db : Db) (uid cuid : String) :
    Option ImuSessionRow :=
  db.imuSessions.find? (fun s => s.userId == uid &&
    db.imuClientUploads.any (fun c =>
      c.imuSessionId == s.imuSessionId && c.clientUploadId == cuid))

/-- The re-SELECT after the session INSERT: `WHERE user_id = %s AND
device_id = %s AND start_time_utc = %s ORDER BY imu_session_id DESC
LIMIT 1`, i.e. the greatest matching session id. -/
def reselectNewSession (db : Db) (uid : String) (devId : Nat) (t : Int) :
    Option Nat :=
  ((db.imuSessions.filter (fun s =>
      s.userId == uid && s.deviceId == devId && s.startTime == t)).map
    (·.imuSessionId)).max?

/-- Steps 4–5 of `CreateImuSession.main`: the SAS-token block.  A missing
connection string or a failed mint is a 500 — returned AFTER the database
statements above it have committed, with no compensating deletion. -/
def finishWithSas (env : StorageEnv) (db : Db) (sid : Nat) (code : Nat) :
    ImuCreateOut :=
  if env.connString = none then ⟨500, db, none⟩
  else if ¬ env.mintOk then ⟨500, db, none⟩
  else ⟨code, db, some sid⟩

/-- The platform enum of `CreateImuSession.main`. -/
def validPlatforms : List String := ["ios", "android", "switch", "other"]

/-- Step 3 of `CreateImuSession.main`: INSERT the session row, re-SELECT
its generated id, and INSERT the idempotency-ledger row.  Returns the
store after those statements and the re-selected id (`none` would mean an
empty re-SELECT, which the handler's catch-all turns into a 500). -/
def insertImuSessionAndLedger (userId cuid : String) (startDt : Int)
    (b : ImuCreateBody) (deviceId : Nat) (db1 : Db) : Db × Option Nat :=
  let row : ImuSessionRow :=
    { imuSessionId := db1.nextImuSessionId, userId := userId,
      deviceId := deviceId, startTime := startDt,
      nominalHz := b.nominalHz, coordFrame := b.coordFrame,
      notes := b.notes, gameSessionId := b.gameSessionId,
      actionType := b.actionType }
  let db2 := { db1 with
               imuSessions := db1.imuSessions ++ [row]
               nextImuSessionId := db1.nextImuSessionId + 1 }
  match reselectNewSession db2 userId deviceId startDt with
  | none => (db2, none)
  | some sid =>
    ({ db2 with imuClientUploads := db2.imuClientUploads ++ [⟨sid, cuid⟩] },
      some sid)

/-- Steps 2–5 of `CreateImuSession.main`, after validation and the device
upsert: idempotency short-circuit (200) or insert (201), then the SAS
block. -/
def imuSessionFlow (userId cuid : String) (startDt : Int)
    (b : ImuCreateBody) (env : StorageEnv) (deviceId : Nat) (db1 : Db) :
    ImuCreateOut :=
  match lookupSessionByUpload db1 userId cuid with
  | some s => finishWithSas env db1 s.imuSessionId 200
  | none =>
    match insertImuSessionAndLedger userId cuid startDt b deviceId db1 with
    | (db2, none) => ⟨500, db2, none⟩
    | (db3, some sid) => finishWithSas env db3 sid 201

/-- `CreateImuSession.main` for an authenticated `userId`: validation in
source order, device upsert, then `imuSessionFlow`. -/
def createImuSession (userId : String) (b : ImuCreateBody)
    (env : StorageEnv) (db : Db) : ImuCreateOut :=
  if ¬ truthyStr b.clientUploadId then ⟨400, db, none⟩
  else
    match b.deviceInfo with
    | none => ⟨400, db, none⟩
    | some di =>
      if ¬ truthyStr di.platform then ⟨400, db, none⟩
      else
        match b.startTimeUtc with
        | none => ⟨400, db, none⟩
        | some startDt =>
          if ¬ validPlatforms.contains (di.platform.getD "") then ⟨400, db, none⟩
          else if ¬ (b.coordFrame = "device" ∨ b.coordFrame = "world") then
            ⟨400, db, none⟩
          else
            let cuid := b.clientUploadId.getD ""
            let (deviceId, db1) := upsertDevice db userId di
            imuSessionFlow userId cuid startDt b env deviceId db1

/-! ## FinalizeImuManifest (src/dojogo-api/FinalizeImuManifest/__init__.py) -/

/-- One entry of the `files` list of the finalize body. -/
structure FileInfo where
  filename : Option String := none
  purpose : Option String := none
  sha256Hex : Option String := none
  bytesSize : Option Nat := none
  numSamples : Option Nat := none
  contentType : Option String := none
  deriving DecidableEq

/-- The optional `rate_stats` object of the finalize body. -/
structure RateStats where
  samplesTotal : Option Int := none
  durationMs : Option Int := none
  meanHz : Option Int := none
  dtMsP50 : Option Int := none
  dtMsP95 : Option Int := none
  dtMsMax : Option Int := none
  droppedSeqPct : Option Int := none
  deriving DecidableEq

/-- The finalize request body; `endTimeUtc` stands for an already-parsed
ISO-8601 timestamp. -/
structure FinalizeBody where
  endTimeUtc : Option Int := none
  files : List FileInfo := []
  rateStats : Option RateStats := none
  deriving DecidableEq

/-- Azure blob storage, as a finite map from blob path to blob size. -/
abbrev Blobs := List (String × Nat)

/-- `get_blob_properties`: `some size` when the blob exists, `none` when
the lookup raises (blob absent). -/
def blobLookup (blobs : Blobs) (path : String) : Option Nat :=
  (List.find? (fun p => p.1 == path) blobs).map (·.2)

/-- Error discriminator carried by the finalize response model. -/
inductive FinErr where
  | endTimeMissing
  | sessionNotFound
  | wrongUser
  | storageNotConfigured
  | noFilename
  | sizeMismatch (filename : String)
  | missingBlobs (names : List String)
  | invalidPurpose (filename : String)
  | invalidSha (filename : String)
  deriving DecidableEq

/-- Response of the finalize handler: status code, resulting store, the
totals of the body, the `missing_files` list of the 400 body, and which
error branch produced a non-200 response. -/
structure FinOut where
  status : Nat
  db : Db
  totalFiles : Option Nat := none
  totalBytes : Option Nat := none
  totalSamples : Option Nat := none
  missingFiles : List String := []
  err : Option FinErr := none
  deriving DecidableEq

/-- Outcome of the step-2 blob-verification loop. -/
inductive VerifyRes where
  | ok
  | noFilename
  | mismatch (filename : String)
  | missingBlobs (names : List String)
  deriving DecidableEq

/-- The step-2 loop of `FinalizeImuManifest.main`: per file, a falsy
`filename` (absent or empty string — `if not filename:`) returns 400 at
once; a present blob whose size differs from a truthy claimed size
returns 400 at once; an absent blob is appended to `missing` and the loop
continues; after the loop, a non-empty `missing` list is reported as one
400. -/
def verifyFiles (sessPath : String) (blobs : Blobs) :
    List FileInfo → List String → VerifyRes
  | [], missing => if missing.isEmpty then .ok else .missingBlobs missing
  | f :: rest, missing =>
    if ¬ truthyStr f.filename then .noFilename
    else
      let name := f.filename.getD ""
      match blobLookup blobs (sessPath ++ name) with
      | some actualSize =>
        if truthyNat f.bytesSize ∧ actualSize ≠ f.bytesSize.getD 0 then
          .mismatch name
        else verifyFiles sessPath blobs rest missing
      | none => verifyFiles sessPath blobs rest (missing ++ [name])

/-- The purpose enum of `FinalizeImuManifest.main`. -/
def validPurposes : List String := ["raw", "manifest", "device", "calib", "events"]

/-- `purpose not in [...]` of the step-3 loop (a `None` purpose is not in
the enum either). -/
def purposeOk : Option String → Bool
  | some p => validPurposes.contains p
  | none => false

/-- The step-3 loop of `FinalizeImuManifest.main`: per file, validate the
purpose enum and checksum length, then an idempotent INSERT keyed by
`(imu_session_id, purpose, storage_url)`; accumulate the byte and sample
totals of this call's input list. -/
def registerFiles (sid : Nat) (sessPath : String) :
    List FileInfo → Db → Nat → Nat → Except (FinErr × Db) (Db × Nat × Nat)
  | [], db, tb, ts => .ok (db, tb, ts)
  | f :: rest, db, tb, ts =>
    let name := f.filename.getD ""
    if ¬ purposeOk f.purpose then
      .error (.invalidPurpose name, db)
    else if truthyStr f.sha256Hex ∧ (f.sha256Hex.getD "").length ≠ 64 then
      .error (.invalidSha name, db)
    else
      let purpose := f.purpose.getD ""
      let storageUrl := sessPath ++ name
      let db' :=
        if (db.imuFiles.find? (fun r =>
            r.imuSessionId == sid && r.purpose == purpose &&
            r.storageUrl == storageUrl)).isSome then db
        else
          { db with
            imuFiles := db.imuFiles ++
              [{ fileId := db.nextFileId, imuSessionId := sid,
                 purpose := purpose, storageUrl := storageUrl,
                 contentType := f.contentType,
                 bytesSize := f.bytesSize.getD 0, sha256Hex := f.sha256Hex,
                 numSamples := f.numSamples }]
            nextFileId := db.nextFileId + 1 }
      let ts' := if truthyNat f.numSamples then ts + f.numSamples.getD 0 else ts
      registerFiles sid sessPath rest db' (tb + f.bytesSize.getD 0) ts'

/-- `SUM(column)` of SQL: `NULL` over the empty set. -/
def sqlSum (vals : List Nat) : Option Nat :=
  if vals.isEmpty then none else some vals.sum

/-- The rows of `imu_session_files` for one session. -/
def sessionFilesOf (db : Db) (sid : Nat) : List ImuFileRow :=
  db.imuFiles.filter (fun r => r.imuSessionId == sid)

/-- Steps 4–5 of `FinalizeImuManifest.main`: UPDATE the session's
`end_time_utc` and `actual_mean_hz`, then INSERT the `rate_stats` row when
supplied, complete (all three of samples-total, duration, mean rate
truthy) and not already present. -/
def finishFinalize (sid : Nat) (endDt : Int) (rateStats : Option RateStats)
    (db : Db) : Db :=
  let meanHz := (rateStats.bind (·.meanHz))
  let db4 := { db with imuSessions := db.imuSessions.map (fun s =>
    if s.imuSessionId == sid then
      { s with endTime := some endDt, actualMeanHz := meanHz }
    else s) }
  match rateStats with
  | none => db4
  | some rs =>
    if ¬ (truthyInt rs.samplesTotal ∧ truthyInt rs.durationMs ∧
        truthyInt rs.meanHz) then db4
    else if (db4.imuStats.find? (fun r => r.imuSessionId == sid)).isSome then
      db4
    else
      { db4 with imuStats := db4.imuStats ++
          [{ imuSessionId := sid, samplesTotal := rs.samplesTotal.getD 0,
             durationMs := rs.durationMs.getD 0, meanHz := rs.meanHz.getD 0,
             dtMsP50 := rs.dtMsP50, dtMsP95 := rs.dtMsP95,
             dtMsMax := rs.dtMsMax, droppedSeqPct := rs.droppedSeqPct }] }

/-- The `users/{user}/sessions/{session}/` path prefix. -/
def sessPathOf (uid : String) (sid : Nat) : String :=
  "users/" ++ uid ++ "/sessions/" ++ toString sid ++ "/"

/-- `FinalizeImuManifest.main` for an authenticated `userId` on session
`sid`: validation, ownership checks, the already-finalized replay branch
(200 with the stored totals, no writes), blob verification, file
registration, session update, stats insert, 200 with this call's totals. -/
def finalizeImuManifest (userId : String) (sid : Nat) (b : FinalizeBody)
    (env : StorageEnv) (blobs : Blobs) (db : Db) : FinOut :=
  match b.endTimeUtc with
  | none => ⟨400, db, none, none, none, [], some .endTimeMissing⟩
  | some endDt =>
    match db.imuSessions.find? (fun s => s.imuSessionId == sid) with
    | none => ⟨404, db, none, none, none, [], some .sessionNotFound⟩
    | some s =>
      if s.userId ≠ userId then
        ⟨403, db, none, none, none, [], some .wrongUser⟩
      else
        match s.endTime with
        | some _ =>
          let fs := sessionFilesOf db sid
          ⟨200, db, some fs.length, sqlSum (fs.map (·.bytesSize)),
            sqlSum (fs.filterMap (·.numSamples)), [], none⟩
        | none =>
          if env.connString = none then
            ⟨500, db, none, none, none, [], some .storageNotConfigured⟩
          else
            let sessPath := sessPathOf userId sid
            match verifyFiles sessPath blobs b.files [] with
            | .noFilename =>
              ⟨400, db, none, none, none, [], some .noFilename⟩
            | .mismatch name =>
              ⟨400, db, none, none, none, [], some (.sizeMismatch name)⟩
            | .missingBlobs names =>
              ⟨400, db, none, none, none, names, some (.missingBlobs names)⟩
            | .ok =>
              match registerFiles sid sessPath b.files db 0 0 with
              | .error (e, dbE) => ⟨400, dbE, none, none, none, [], some e⟩
              | .ok (db3, totalBytes, totalSamples) =>
                let db5 := finishFinalize sid endDt b.rateStats db3
                ⟨200, db5, some b.files.length, some totalBytes,
                  some totalSamples, [], none⟩

/-! ## Spec-side definitions (for refinement statements) -/

/-- The missing-file report the spec describes for finalize: every file of
the manifest whose blob is absent from storage, in manifest order.  This
definition follows the spec's words and is compared against the handler's
behaviour. -/
def specMissingFiles (sessPath : String) (blobs : Blobs)
    (files : List FileInfo) : List String :=
  files.filterMap (fun f =>
    match f.filename with
    | some n => if blobLookup blobs (sessPath ++ n) = none then some n else none
    | none => none)

/-! ## Test fixtures -/

/-- A user row qualifying for both leaderboards. -/
def activeUser : UserRow :=
  { id := "u", name := "n", email := "e", streak := 1, totalCount := 1 }

/-- 101 qualifying users, to exceed the alleged 100-row cap. -/
def users101 : List UserRow := List.replicate 101 activeUser

/-- A syntactically well-formed bearer token whose full verification
(signature/audience/issuer) fails. -/
def forgedToken : Token :=
  { wellFormed := true
    fullyValid := false
    kid := "kid-1"
    sub := some "attacker" }

/-- An unfinalized IMU session owned by user `u`. -/
def imuSess7 : ImuSessionRow :=
  { imuSessionId := 7
    userId := "u"
    deviceId := 1
    startTime := 0
    nominalHz := none
    coordFrame := "device"
    notes := none
    gameSessionId := none
    actionType := none }

/-- A store holding only `imuSess7`. -/
def dbC3 : Db := { imuSessions := [imuSess7] }

/-- A fully configured storage environment. -/
def envOk : StorageEnv := { connString := some "cs", mintOk := true }

/-- Storage holding one 5-byte blob for session 7. -/
def blobsC3 : Blobs := [("users/u/sessions/7/a.bin", 5)]

/-- A finalize body whose first file misstates the size of an existing
blob (claims 6 bytes against 5) and whose second file's blob is absent. -/
def bodyC3 : FinalizeBody :=
  { endTimeUtc := some 100
    files := [{ filename := some "a.bin", purpose := some "raw",
                bytesSize := some 6 },
              { filename := some "b.bin", purpose := some "raw",
                bytesSize := some 4 }] }

/-- A user with a nickname last changed at epoch second 0. -/
def userW : UserRow :=
  { id := "w"
    name := "n"
    email := "w@e"
    nickname := some "oldnick"
    nicknameLastChanged := some 0
    streak := 0
    totalCount := 0 }

/-- A store holding only `userW`, with no sessions. -/
def dbW : Db := { users := [userW] }

/-- A user with both metrics at zero. -/
def freshUser : UserRow :=
  { id := "f", name := "f", email := "f", streak := 0, totalCount := 0 }

/-- An already-finalized session. -/
def sessFin : ImuSessionRow :=
  { imuSessionId := 3
    userId := "u"
    deviceId := 1
    startTime := 0
    nominalHz := none
    coordFrame := "device"
    notes := none
    gameSessionId := none
    actionType := none
    endTime := some 50 }

/-- The one file registered for `sessFin`. -/
def fileRow3 : ImuFileRow :=
  { fileId := 1
    imuSessionId := 3
    purpose := "raw"
    storageUrl := "users/u/sessions/3/a.bin"
    contentType := none
    bytesSize := 5
    sha256Hex := none
    numSamples := some 100 }

/-- A store with the finalized `sessFin` and its file row. -/
def dbFin : Db := { imuSessions := [sessFin], imuFiles := [fileRow3] }

/-- A finalize body replaying against `sessFin`. -/
def bodyW : FinalizeBody := { endTimeUtc := some 99 }

/-- Device info of a valid IMU-session-create payload. -/
def diW : DeviceInfo := { platform := some "ios", hwId := some "hw" }

/-- A valid IMU-session-create payload. -/
def imuBodyW : ImuCreateBody :=
  { clientUploadId := some "c1"
    deviceInfo := some diW
    startTimeUtc := some 1000 }

/-- A storage environment with no connection string configured. -/
def envBad : StorageEnv := { connString := none, mintOk := true }

/-! ## Helper lemmas -/

theorem length_insertDesc (ge : UserRow → UserRow → Bool) (x : UserRow) :
    ∀ l : List UserRow, (insertDesc ge x l).length = l.length + 1 := by
  intro l
  induction l with
  | nil => rfl
  | cons y ys ih =>
    simp only [insertDesc]
    by_cases h : ge x y
    · simp [h]
    · simp [h, ih]

theorem length_sortDesc (ge : UserRow → UserRow → Bool) :
    ∀ l : List UserRow, (sortDesc ge l).length = l.length := by
  intro l
  induction l with
  | nil => rfl
  | cons x xs ih => simp [sortDesc, length_insertDesc, ih]

theorem mem_insertDesc {ge : UserRow → UserRow → Bool} {x a : UserRow} :
    ∀ {l : List UserRow}, a ∈ insertDesc ge x l ↔ a = x ∨ a ∈ l := by
  intro l
  induction l with
  | nil => simp [insertDesc]
  | cons y ys ih =>
    by_cases h : ge x y
    · simp [insertDesc, h]
    · simp only [insertDesc, h, Bool.false_eq_true, if_false, List.mem_cons, ih]
      tauto

theorem mem_sortDesc {ge : UserRow → UserRow → Bool} {a : UserRow} :
    ∀ {l : List UserRow}, a ∈ sortDesc ge l → a ∈ l := by
  intro l
  induction l with
  | nil => simp [sortDesc]
  | cons x xs ih =>
    intro h
    rcases mem_insertDesc.mp h with rfl | h'
    · exact List.mem_cons_self _ _
    · exact List.mem_cons_of_mem _ (ih h')

/-- Every row of a 200 leaderboard response is the projection of a stored
user that passed the WHERE clause. -/
theorem leaderboard_rows_from_filter {t : String} {lp : Option Int}
    {users : List UserRow} {r : LeaderRow}
    (hr : r ∈ (getLeaderboard (some t) lp users).rows) :
    ∃ u, u ∈ users ∧ leaderFilter t u = true ∧ r = projectLeader t u := by
  by_cases ht2 : (¬ t = "total" ∧ ¬ t = "streak")
  · simp [getLeaderboard, ht2] at hr
  · by_cases hlim : ((lp.getD 100 : Int) < 0)
    · simp [getLeaderboard, runLeaderboardQuery, ht2, hlim] at hr
    · simp [getLeaderboard, runLeaderboardQuery, ht2, hlim] at hr
      have hr' : r ∈ List.map (projectLeader t)
          (sortDesc (leaderGe t) (users.filter (leaderFilter t))) := by
        have := List.take_subset ((lp.getD 100).toNat) _ hr
        simpa using this
      rw [List.mem_map] at hr'
      obtain ⟨u, hu, rfl⟩ := hr'
      have hu'' := mem_sortDesc hu
      rw [List.mem_filter] at hu''
      exact ⟨u, hu''.1, hu''.2, rfl⟩

/-- `Int.fdiv` (Python's floor division, `timedelta.days`) agrees with
`Int.ediv` on non-negative operands. -/
theorem fdiv_nonneg_eq_ediv (a b : Int) (_ha : 0 ≤ a) (hb : 0 ≤ b) :
    a.fdiv b = a / b := Int.fdiv_eq_ediv a hb

/-- `find?` over an UPDATE ... WHERE id = uid image: the first matching
row is the updated first match, provided the update preserves ids. -/
theorem find?_update_list (uid : String) (f : UserRow → UserRow)
    (hf : ∀ u, (f u).id = u.id) :
    ∀ l : List UserRow,
      (l.map (fun u => if u.id == uid then f u else u)).find?
          (fun u => u.id == uid) =
        (l.find? (fun u => u.id == uid)).map f := by
  intro l
  induction l with
  | nil => rfl
  | cons u us ih =>
    rw [List.map_cons]
    by_cases h : (u.id == uid) = true
    · rw [if_pos h]
      simp [List.find?, hf u, h]
    · have h' : (u.id == uid) = false := by simpa using h
      rw [if_neg h]
      simp only [List.find?, h']
      exact ih

theorem lookupUser_updateUsers (db : Db) (uid : String) (f : UserRow → UserRow)
    (hf : ∀ u, (f u).id = u.id) :
    lookupUser (updateUsers db uid f) uid = (lookupUser db uid).map f := by
  simpa [lookupUser, updateUsers] using find?_update_list uid f hf db.users

/-- `find?` over an appended list when the prefix has no match. -/
theorem find?_append_left_none {α : Type} (p : α → Bool) {l : List α}
    (l' : List α) (h : l.find? p = none) :
    (l ++ l').find? p = l'.find? p := by
  induction l with
  | nil => rfl
  | cons x xs ih =>
    rw [List.find?_cons] at h
    rcases hx : p x with _ | _
    · rw [List.cons_append, List.find?_cons, hx]
      exact ih (by simpa [hx] using h)
    · simp [hx] at h

/-- Session counts ignore the users table. -/
theorem countSessions_updateUsers (d : Db) (v : String)
    (f : UserRow → UserRow) (w : String) (day : Int) :
    countSessions (updateUsers d v f) w day = countSessions d w day := rfl

/-- Inserting a session on `today` raises that day's count by one. -/
theorem countSessions_insert_today (db : Db) (uid sid : String)
    (tap today : Int) :
    countSessions { db with sessions := db.sessions ++ [⟨sid, uid, tap, today⟩] }
        uid today =
      countSessions db uid today + 1 := by
  simp [countSessions, List.filter_append]

/-- Inserting a session on `today` leaves any other day's count alone. -/
theorem countSessions_insert_other (db : Db) (uid sid : String)
    (tap today d : Int) (hne : d ≠ today) :
    countSessions { db with sessions := db.sessions ++ [⟨sid, uid, tap, today⟩] }
        uid d =
      countSessions db uid d := by
  have h : (today == d) = false := by
    simp only [beq_eq_false_iff_ne, ne_eq]
    exact fun h => hne h.symm
  simp [countSessions, List.filter_append, h]

/-- User lookups ignore the sessions table. -/
theorem lookupUser_set_sessions (db : Db) (s : List SessionRow) (uid : String) :
    lookupUser { db with sessions := s } uid = lookupUser db uid := rfl

/-- The device upsert touches only the devices table and its counter. -/
theorem upsertDevice_frame (db : Db) (uid : String) (di : DeviceInfo) :
    (upsertDevice db uid di).2.imuSessions = db.imuSessions ∧
    (upsertDevice db uid di).2.imuClientUploads = db.imuClientUploads ∧
    (upsertDevice db uid di).2.nextImuSessionId = db.nextImuSessionId := by
  simp only [upsertDevice]
  cases hfd : findDevice db uid (di.hwId.getD "unknown") <;> simp [hfd]

/-- The idempotency lookup reads only the session and ledger tables. -/
theorem lookupSessionByUpload_eq_of (db db' : Db) (uid cuid : String)
    (hs : db'.imuSessions = db.imuSessions)
    (hc : db'.imuClientUploads = db.imuClientUploads) :
    lookupSessionByUpload db' uid cuid = lookupSessionByUpload db uid cuid := by
  unfold lookupSessionByUpload
  rw [hs, hc]

theorem foldl_max_le {n : Nat} :
    ∀ {xs : List Nat} {x : Nat}, x ≤ n → (∀ y ∈ xs, y ≤ n) →
      xs.foldl max x ≤ n := by
  intro xs
  induction xs with
  | nil =>
    intro x hx _
    simpa using hx
  | cons y ys ih =>
    intro x hx h
    simp only [List.foldl_cons]
    exact ih (max_le hx (h y (List.mem_cons_self y ys)))
      (fun z hz => h z (List.mem_cons_of_mem y hz))

/-- `ORDER BY id DESC LIMIT 1` over rows whose ids are all at most the
last row's id returns the last row's id. -/
theorem max?_append_singleton {ids : List Nat} {n : Nat}
    (h : ∀ y ∈ ids, y ≤ n) : (ids ++ [n]).max? = some n := by
  cases ids with
  | nil => rfl
  | cons x xs =>
    rw [List.cons_append, List.max?_cons', List.foldl_append]
    have hle : List.foldl max x xs ≤ n :=
      foldl_max_le (h x (List.mem_cons_self x xs))
        (fun z hz => h z (List.mem_cons_of_mem x hz))
    simp [max_eq_right hle]

/-- Step 3 in a well-formed store: the re-SELECT finds exactly the row
just inserted (all pre-existing ids are below the generated one), so the
step returns the store with the session and ledger rows appended and the
fresh id. -/
theorem insertImuSessionAndLedger_run (userId cuid : String) (startDt : Int)
    (b : ImuCreateBody) (deviceId : Nat) (db1 : Db)
    (hwf : ∀ s ∈ db1.imuSessions, s.imuSessionId < db1.nextImuSessionId) :
    insertImuSessionAndLedger userId cuid startDt b deviceId db1 =
      ({ db1 with
         imuSessions := db1.imuSessions ++
           [{ imuSessionId := db1.nextImuSessionId, userId := userId,
              deviceId := deviceId, startTime := startDt,
              nominalHz := b.nominalHz, coordFrame := b.coordFrame,
              notes := b.notes, gameSessionId := b.gameSessionId,
              actionType := b.actionType }]
         nextImuSessionId := db1.nextImuSessionId + 1
         imuClientUploads := db1.imuClientUploads ++
           [⟨db1.nextImuSessionId, cuid⟩] },
        some db1.nextImuSessionId) := by
  have hres : reselectNewSession
      { db1 with
        imuSessions := db1.imuSessions ++
          [{ imuSessionId := db1.nextImuSessionId, userId := userId,
             deviceId := deviceId, startTime := startDt,
             nominalHz := b.nominalHz, coordFrame := b.coordFrame,
             notes := b.notes, gameSessionId := b.gameSessionId,
             actionType := b.actionType }]
        nextImuSessionId := db1.nextImuSessionId + 1 }
      userId deviceId startDt = some db1.nextImuSessionId := by
    unfold reselectNewSession
    simp only [List.filter_append]
    rw [show List.filter _
        [({ imuSessionId := db1.nextImuSessionId, userId := userId,
            deviceId := deviceId, startTime := startDt,
            nominalHz := b.nominalHz, coordFrame := b.coordFrame,
            notes := b.notes, gameSessionId := b.gameSessionId,
            actionType := b.actionType } : ImuSessionRow)] =
        [{ imuSessionId := db1.nextImuSessionId, userId := userId,
           deviceId := deviceId, startTime := startDt,
           nominalHz := b.nominalHz, coordFrame := b.coordFrame,
           notes := b.notes, gameSessionId := b.gameSessionId,
           actionType := b.actionType }] from by simp]
    rw [List.map_append]
    apply max?_append_singleton
    intro y hy
    obtain ⟨s, hsmem, rfl⟩ := List.mem_map.mp hy
    exact Nat.le_of_lt (hwf s (List.mem_filter.mp hsmem).1)
  simp only [insertImuSessionAndLedger]
  rw [hres]

/-- A create call whose validation passes reduces to the device upsert
followed by `imuSessionFlow`. -/
theorem createImuSession_valid_eq (userId : String) (b : ImuCreateBody)
    (di : DeviceInfo) (env : StorageEnv) (db : Db) (stv : Int)
    (hdi : b.deviceInfo = some di)
    (hcu : truthyStr b.clientUploadId = true)
    (hpl : truthyStr di.platform = true)
    (hplv : validPlatforms.contains (di.platform.getD "") = true)
    (hstv : b.startTimeUtc = some stv)
    (hcf : b.coordFrame = "device" ∨ b.coordFrame = "world") :
    createImuSession userId b env db =
      imuSessionFlow userId (b.clientUploadId.getD "") stv b env
        (upsertDevice db userId di).1 (upsertDevice db userId di).2 := by
  rcases hup : upsertDevice db userId di with ⟨devId, db1⟩
  simp only [createImuSession, hdi, hcu, hpl, hplv, hstv, hup,
    not_true, if_false, Bool.true_eq_false]
  rw [if_neg (not_not_intro hcf)]

/-- The idempotency short-circuit: when the ledger join finds a session,
the flow replies via the SAS block with code 200 and that session's id,
writing nothing. -/
theorem imuSessionFlow_replay (userId cuid : String) (startDt : Int)
    (b : ImuCreateBody) (env : StorageEnv) (deviceId : Nat) (db1 : Db)
    (s : ImuSessionRow)
    (hfound : lookupSessionByUpload db1 userId cuid = some s) :
    imuSessionFlow userId cuid startDt b env deviceId db1 =
      finishWithSas env db1 s.imuSessionId 200 := by
  simp only [imuSessionFlow, hfound]

/-- The fresh path: when the ledger join finds nothing, the flow inserts
the session and ledger rows and replies via the SAS block with code 201
and the generated id. -/
theorem imuSessionFlow_fresh (userId cuid : String) (startDt : Int)
    (b : ImuCreateBody) (env : StorageEnv) (deviceId : Nat) (db1 : Db)
    (hnone : lookupSessionByUpload db1 userId cuid = none)
    (hwf : ∀ s ∈ db1.imuSessions, s.imuSessionId < db1.nextImuSessionId) :
    imuSessionFlow userId cuid startDt b env deviceId db1 =
      finishWithSas env
        { db1 with
          imuSessions := db1.imuSessions ++
            [{ imuSessionId := db1.nextImuSessionId, userId := userId,
               deviceId := deviceId, startTime := startDt,
               nominalHz := b.nominalHz, coordFrame := b.coordFrame,
               notes := b.notes, gameSessionId := b.gameSessionId,
               actionType := b.actionType }]
          nextImuSessionId := db1.nextImuSessionId + 1
          imuClientUploads := db1.imuClientUploads ++
            [⟨db1.nextImuSessionId, cuid⟩] }
        db1.nextImuSessionId 201 := by
  simp only [imuSessionFlow, hnone,
    insertImuSessionAndLedger_run userId cuid startDt b deviceId db1 hwf]

/-- After the fresh path inserted the `(session, ledger)` pair, the
idempotency join finds exactly that session: pre-existing sessions cannot
match (their ledger rows did not match before, and the new ledger row
carries an id larger than all of theirs). -/
theorem lookupSessionByUpload_after_insert (db1 : Db) (uid cuid : String)
    (row : ImuSessionRow) (newId : Nat) (db3 : Db)
    (hnew : lookupSessionByUpload db1 uid cuid = none)
    (hrowid : row.imuSessionId = newId)
    (hrowuser : row.userId = uid)
    (hbound : ∀ s ∈ db1.imuSessions, s.imuSessionId < newId)
    (hs : db3.imuSessions = db1.imuSessions ++ [row])
    (hc : db3.imuClientUploads = db1.imuClientUploads ++ [⟨newId, cuid⟩]) :
    lookupSessionByUpload db3 uid cuid = some row := by
  have hold : ∀ s ∈ db1.imuSessions,
      ((fun s => s.userId == uid &&
        db1.imuClientUploads.any (fun c =>
          c.imuSessionId == s.imuSessionId && c.clientUploadId == cuid)) s)
        ≠ true := by
    have := List.find?_eq_none.mp (by exact hnew)
    exact this
  unfold lookupSessionByUpload
  rw [hs, hc]
  rw [find?_append_left_none]
  · simp [List.find?, List.any_append, hrowuser, hrowid]
  · rw [List.find?_eq_none]
    intro s hsmem
    have hnid : (newId == s.imuSessionId) = false := by
      simp only [beq_eq_false_iff_ne, ne_eq]
      have := hbound s hsmem
      omega
    have hbase := hold s hsmem
    simp only [List.any_append, List.any_cons, List.any_nil, hnid,
      Bool.false_and, Bool.or_false] at *
    simpa using hbase

/-- A fresh create call (validation passes, no ledger match, well-formed
ids): the database effect is exactly one session row and one ledger row
appended, with the generated id, and the response is the SAS block applied
to that state with code 201 — whatever the storage environment holds. -/
theorem createImuSession_fresh_spec (userId : String) (b : ImuCreateBody)
    (di : DeviceInfo) (db : Db) (stv : Int)
    (hdi : b.deviceInfo = some di)
    (hcu : truthyStr b.clientUploadId = true)
    (hpl : truthyStr di.platform = true)
    (hplv : validPlatforms.contains (di.platform.getD "") = true)
    (hstv : b.startTimeUtc = some stv)
    (hcf : b.coordFrame = "device" ∨ b.coordFrame = "world")
    (hwf : ∀ s ∈ db.imuSessions, s.imuSessionId < db.nextImuSessionId)
    (hnew : lookupSessionByUpload db userId (b.clientUploadId.getD "") = none) :
    ∃ (d1 : Db) (row : ImuSessionRow),
      (∀ env : StorageEnv, createImuSession userId b env db =
        finishWithSas env d1 row.imuSessionId 201) ∧
      d1.imuSessions = db.imuSessions ++ [row] ∧
      d1.imuClientUploads = db.imuClientUploads ++
        [⟨row.imuSessionId, b.clientUploadId.getD ""⟩] ∧
      row.imuSessionId = db.nextImuSessionId ∧
      row.userId = userId ∧
      (∀ s ∈ db.imuSessions, s.imuSessionId < row.imuSessionId) := by
  obtain ⟨hf1, hf2, hf3⟩ := upsertDevice_frame db userId di
  have hlk1 : lookupSessionByUpload (upsertDevice db userId di).2 userId
      (b.clientUploadId.getD "") = none := by
    rw [lookupSessionByUpload_eq_of db ((upsertDevice db userId di).2) userId
      (b.clientUploadId.getD "") hf1 hf2]
    exact hnew
  have hwf1 : ∀ s ∈ (upsertDevice db userId di).2.imuSessions,
      s.imuSessionId < (upsertDevice db userId di).2.nextImuSessionId := by
    rw [hf1, hf3]
    exact hwf
  refine ⟨{ (upsertDevice db userId di).2 with
            imuSessions := (upsertDevice db userId di).2.imuSessions ++
              [{ imuSessionId := (upsertDevice db userId di).2.nextImuSessionId,
                 userId := userId, deviceId := (upsertDevice db userId di).1,
                 startTime := stv, nominalHz := b.nominalHz,
                 coordFrame := b.coordFrame, notes := b.notes,
                 gameSessionId := b.gameSessionId, actionType := b.actionType }]
            nextImuSessionId := (upsertDevice db userId di).2.nextImuSessionId + 1
            imuClientUploads := (upsertDevice db userId di).2.imuClientUploads ++
              [⟨(upsertDevice db userId di).2.nextImuSessionId,
                b.clientUploadId.getD ""⟩] },
          { imuSessionId := (upsertDevice db userId di).2.nextImuSessionId,
            userId := userId, deviceId := (upsertDevice db userId di).1,
            startTime := stv, nominalHz := b.nominalHz,
            coordFrame := b.coordFrame, notes := b.notes,
            gameSessionId := b.gameSessionId, actionType := b.actionType },
          ?_, ?_, ?_, ?_, ?_, ?_⟩
  · intro env
    rw [createImuSession_valid_eq userId b di env db stv hdi hcu hpl hplv
      hstv hcf]
    exact imuSessionFlow_fresh userId (b.clientUploadId.getD "") stv b env
      (upsertDevice db userId di).1 (upsertDevice db userId di).2 hlk1 hwf1
  · simp [hf1]
  · simp [hf2]
  · exact hf3
  · rfl
  · intro s hs
    exact lt_of_lt_of_le (hwf s hs) (le_of_eq hf3.symm)

/-! ## Claim theorems -/

/-- C4 (for the code as written): the `require_auth` decorator — the gate
on every mutating endpoint — admits a bearer token that merely decodes,
running the handler with its unverified subject even though full
signature/audience/issuer verification fails; and `verify_token` itself
falls back to the unverified payload in the same situation.  This
contradicts the claim that only fully verified tokens are admitted and
that an invalid-signature token yields 401. -/
theorem require_auth_admits_unverified_token :
    forgedToken.fullyValid = false ∧
    require_auth (some forgedToken) = .handlerRun (some "attacker") ∧
    verify_token ["kid-1"] forgedToken = some (some "attacker") :=
  ⟨rfl, rfl, rfl⟩

/-- C7: a nickname change strictly within 30 days of the previous change
is a 429 that leaves the store (nickname and timestamp included)
unchanged; at exactly 30 days the cooldown passes and — the nickname being
free — the change succeeds with both fields updated. -/
theorem nickname_cooldown (userId nick : String) (now lc : Int) (db : Db)
    (u : UserRow)
    (hnick : nick ≠ "" ∧ 3 ≤ nick.length ∧ nick.length ≤ 50)
    (hu : lookupUser db userId = some u)
    (hlc : u.nicknameLastChanged = some lc)
    (hmono : lc ≤ now) :
    (now - lc < 30 * 86400 →
      (updateNickname userId (some nick) now db).status = 429 ∧
      (updateNickname userId (some nick) now db).db = db) ∧
    (now - lc = 30 * 86400 →
      (db.users.any (fun v => v.nickname == some nick && v.id != userId)) = false →
      (updateNickname userId (some nick) now db).status = 200 ∧
      lookupUser (updateNickname userId (some nick) now db).db userId =
        some { u with nickname := some nick, nicknameLastChanged := some now }) := by
  obtain ⟨hne, hlen⟩ := hnick
  have htr : truthyStr (some nick) = true := by simp [truthyStr, hne]
  constructor
  · intro hwithin
    have hdays : (now - lc).fdiv 86400 < 30 := by
      rw [fdiv_nonneg_eq_ediv _ _ (by omega) (by omega)]
      omega
    simp [updateNickname, htr, hlen.1, hlen.2, hu, hlc, hdays]
  · intro hexact hfree
    have hdays : ¬ ((now - lc).fdiv 86400 < 30) := by
      rw [fdiv_nonneg_eq_ediv _ _ (by omega) (by omega)]
      omega
    have hid : ∀ w : UserRow,
        ((fun w : UserRow => { w with
          nickname := some nick
          nicknameLastChanged := some now }) w).id = w.id := fun _ => rfl
    simp [updateNickname, htr, hlen.1, hlen.2, hu, hlc, hdays, hfree,
      lookupUser_updateUsers _ _ _ hid, hu]

/-- C10: creating a user with a nickname stamps `nickname_last_changed`
with the creation time, so a nickname-change attempt strictly within 30
days of account creation is refused with 429 and the store is unchanged,
even though the user never called the nickname endpoint. -/
theorem nickname_cooldown_starts_at_creation (userId name email nick nick2 : String)
    (now t : Int) (db : Db)
    (hvalid : userId ≠ "" ∧ name ≠ "" ∧ email ≠ "" ∧ nick ≠ "")
    (hfresh : lookupUser db userId = none)
    (hemail : db.users.any (fun v => v.email == email) = false)
    (hnickfree : db.users.any (fun v => v.nickname == some nick) = false)
    (hnick2 : nick2 ≠ "" ∧ 3 ≤ nick2.length ∧ nick2.length ≤ 50)
    (hclock : now ≤ t) (hwithin : t - now < 30 * 86400) :
    (createUser userId (some name) (some email) (some nick) now db).status = 201 ∧
    (updateNickname userId (some nick2) t
      (createUser userId (some name) (some email) (some nick) now db).db).status = 429 ∧
    (updateNickname userId (some nick2) t
        (createUser userId (some name) (some email) (some nick) now db).db).db =
      (createUser userId (some name) (some email) (some nick) now db).db := by
  obtain ⟨hid, hname, hemail', hnick⟩ := hvalid
  have htrn : truthyStr (some name) = true := by simp [truthyStr, hname]
  have htre : truthyStr (some email) = true := by simp [truthyStr, hemail']
  have htrk : truthyStr (some nick) = true := by simp [truthyStr, hnick]
  have hrow :
      (createUser userId (some name) (some email) (some nick) now db).db.users =
        db.users ++ [⟨userId, name, email, some nick, some now, 0, 0⟩] ∧
      (createUser userId (some name) (some email) (some nick) now db).status = 201 := by
    constructor <;>
      simp [createUser, hid, htrn, htre, htrk, hfresh, hemail, hnickfree]
  have hlook : lookupUser
      (createUser userId (some name) (some email) (some nick) now db).db userId =
      some ⟨userId, name, email, some nick, some now, 0, 0⟩ := by
    unfold lookupUser
    rw [hrow.1, find?_append_left_none _ _ hfresh]
    simp [List.find?_cons]
  have htr2 : truthyStr (some nick2) = true := by simp [truthyStr, hnick2.1]
  have hdays : (t - now).fdiv 86400 < 30 := by
    rw [fdiv_nonneg_eq_ediv _ _ (by omega) (by omega)]
    omega
  refine ⟨hrow.2, ?_, ?_⟩ <;>
    simp [updateNickname, htr2, hnick2.2.1, hnick2.2.2, hlook, hdays]

/-- C6: on a tap-session insert, the streak becomes `streak + 1` when this
is the first session of the caller's day and a prior-day session exists,
becomes `1` when it is the first session of the day and no prior-day
session exists, and is unchanged otherwise; the total always grows by the
tap count. -/
theorem tap_session_streak (userId sid : String) (tap dur today : Int)
    (db : Db) (u : UserRow)
    (hsid : sid ≠ "")
    (hfreshSid : db.sessions.any (fun s => s.id == sid) = false)
    (hu : lookupUser db userId = some u) :
    (createSession userId (some sid) (some tap) (some dur) today db).status = 201 ∧
    (countSessions db userId today = 0 → 0 < countSessions db userId (today - 1) →
      lookupUser (createSession userId (some sid) (some tap) (some dur) today db).db userId =
        some { u with totalCount := u.totalCount + tap, streak := u.streak + 1 }) ∧
    (countSessions db userId today = 0 → countSessions db userId (today - 1) = 0 →
      lookupUser (createSession userId (some sid) (some tap) (some dur) today db).db userId =
        some { u with totalCount := u.totalCount + tap, streak := 1 }) ∧
    (0 < countSessions db userId today →
      lookupUser (createSession userId (some sid) (some tap) (some dur) today db).db userId =
        some { u with totalCount := u.totalCount + tap }) := by
  have htr : truthyStr (some sid) = true := by simp [truthyStr, hsid]
  have hu' : db.users.find? (fun v => v.id == userId) = some u := hu
  have hmemu := List.mem_of_find?_eq_some hu'
  have hpredu := List.find?_some hu'
  have hexists : db.users.any (fun v => v.id == userId) = true :=
    List.any_eq_true.mpr ⟨u, hmemu, hpredu⟩
  have hyc := countSessions_insert_other db userId sid tap today (today - 1)
    (by omega)
  have htc := countSessions_insert_today db userId sid tap today
  refine ⟨?_, ?_, ?_, ?_⟩
  · simp [createSession, htr, hfreshSid, hexists]
  · intro h1 h2
    simp [createSession, htr, hfreshSid, hexists, countSessions_updateUsers,
      hyc, htc, h1, h2, lookupUser_updateUsers, lookupUser_set_sessions, hu]
  · intro h1 h2
    simp [createSession, htr, hfreshSid, hexists, countSessions_updateUsers,
      hyc, htc, h1, h2, lookupUser_updateUsers, lookupUser_set_sessions, hu]
  · intro h1
    have hne1 : (countSessions db userId today + 1 == 1) = false := by
      simp only [beq_eq_false_iff_ne, ne_eq]
      omega
    simp [createSession, htr, hfreshSid, hexists, countSessions_updateUsers,
      htc, hne1, lookupUser_updateUsers, lookupUser_set_sessions, hu]

/-- C9: for every leaderboard request with a valid type, every returned
row has a strictly positive selected metric, and a user whose two metrics
are both zero is projected onto neither leaderboard. -/
theorem leaderboard_excludes_zero_metric (t : String) (lp : Option Int)
    (users : List UserRow) (ht : t = "total" ∨ t = "streak") :
    (∀ r ∈ (getLeaderboard (some t) lp users).rows, 0 < r.score) ∧
    (∀ u ∈ users, u.totalCount = 0 → u.streak = 0 →
      projectLeader t u ∉ (getLeaderboard (some t) lp users).rows) := by
  have hscore : ∀ r ∈ (getLeaderboard (some t) lp users).rows, 0 < r.score := by
    intro r hr
    obtain ⟨u, _, hf, rfl⟩ := leaderboard_rows_from_filter hr
    rcases ht with rfl | rfl
    · simp only [leaderFilter, beq_self_eq_true, if_pos, decide_eq_true_eq] at hf
      simpa [projectLeader] using hf
    · simp only [leaderFilter, show (("streak" : String) == "total") = false by rfl,
        Bool.false_eq_true, if_neg, decide_eq_true_eq] at hf
      simpa [projectLeader, show (("streak" : String) == "total") = false by rfl] using hf
  refine ⟨hscore, ?_⟩
  intro u _ htot hstr hmem
  have h0 := hscore _ hmem
  rcases ht with rfl | rfl
  · simp [projectLeader, htot] at h0
  · simp [projectLeader, show (("streak" : String) == "total") = false by rfl, hstr] at h0

/-- C5 counterexample: the handler applies no clamping — a supplied limit
of 0 yields zero rows even though a qualifying user exists (a limit
clamped into [1,100] would return it), and a supplied limit of 10000 is
used as-is, returning all 101 qualifying rows. -/
theorem leaderboard_limit_unclamped_cex :
    (getLeaderboard (some "total") (some 0) [activeUser]).rows = [] ∧
    (getLeaderboard (some "total") (some 10000) users101).rows.length = 101 := by
  exact ⟨rfl, rfl⟩

/-- C5 as amended: the effective limit of the top-N query is the
caller-supplied value itself (default 100 when absent), not a value
clamped into [1,100]: for any non-negative supplied limit `lim` the
response is a 200 whose row count is `min lim (number of users passing
the WHERE clause)`. -/
theorem leaderboard_limit_passthrough (t : String) (lim : Int)
    (users : List UserRow) (ht : t = "total" ∨ t = "streak")
    (hlim : 0 ≤ lim) :
    (getLeaderboard (some t) (some lim) users).status = 200 ∧
    (getLeaderboard (some t) (some lim) users).rows.length =
      min lim.toNat (users.filter (leaderFilter t)).length := by
  have ht2 : ¬ (¬ t = "total" ∧ ¬ t = "streak") := by
    rcases ht with rfl | rfl <;> simp
  have hneg : ¬ ((lim : Int) < 0) := by omega
  constructor
  · simp [getLeaderboard, runLeaderboardQuery, ht2, hneg]
  · simp [getLeaderboard, runLeaderboardQuery, ht2, hneg, length_sortDesc]

/-- C1: for a valid creation payload in a well-formed store with no prior
upload under the same `client_upload_id`, two successive create calls
return the same `imu_session_id`, the first with 201 (insert path) and the
second with 200 (idempotency-ledger short-circuit, no insert). -/
theorem imu_create_idempotent (userId : String) (b : ImuCreateBody)
    (di : DeviceInfo) (env : StorageEnv) (db : Db)
    (hdi : b.deviceInfo = some di)
    (hcu : truthyStr b.clientUploadId = true)
    (hpl : truthyStr di.platform = true)
    (hplv : validPlatforms.contains (di.platform.getD "") = true)
    (hstv : ∃ v, b.startTimeUtc = some v)
    (hcf : b.coordFrame = "device" ∨ b.coordFrame = "world")
    (henv : ¬ env.connString = none) (hmint : env.mintOk = true)
    (hwf : ∀ s ∈ db.imuSessions, s.imuSessionId < db.nextImuSessionId)
    (hnew : lookupSessionByUpload db userId (b.clientUploadId.getD "") = none) :
    (createImuSession userId b env db).status = 201 ∧
    (createImuSession userId b env
      (createImuSession userId b env db).db).status = 200 ∧
    (createImuSession userId b env
        (createImuSession userId b env db).db).sessionId =
      (createImuSession userId b env db).sessionId ∧
    (createImuSession userId b env db).sessionId = some db.nextImuSessionId := by
  obtain ⟨stv, hstv⟩ := hstv
  have hsas : ∀ (d : Db) (idn c : Nat),
      finishWithSas env d idn c = ⟨c, d, some idn⟩ := by
    intro d idn c
    simp [finishWithSas, henv, hmint]
  obtain ⟨d1, row, hrunAll, hS, hC, hrid, hru, hb⟩ :=
    createImuSession_fresh_spec userId b di db stv hdi hcu hpl hplv hstv
      hcf hwf hnew
  have hrun1 : createImuSession userId b env db =
      ⟨201, d1, some row.imuSessionId⟩ := by
    rw [hrunAll env, hsas]
  obtain ⟨hg1, hg2, hg3⟩ := upsertDevice_frame d1 userId di
  have hlk2 : lookupSessionByUpload (upsertDevice d1 userId di).2 userId
      (b.clientUploadId.getD "") = some row := by
    rw [lookupSessionByUpload_eq_of d1 ((upsertDevice d1 userId di).2) userId
      (b.clientUploadId.getD "") hg1 hg2]
    exact lookupSessionByUpload_after_insert db userId
      (b.clientUploadId.getD "") row row.imuSessionId d1 hnew rfl hru hb hS hC
  have hrun2 : createImuSession userId b env d1 =
      ⟨200, (upsertDevice d1 userId di).2, some row.imuSessionId⟩ := by
    rw [createImuSession_valid_eq userId b di env d1 stv hdi hcu hpl hplv
      hstv hcf]
    rw [imuSessionFlow_replay userId (b.clientUploadId.getD "") stv b env
      (upsertDevice d1 userId di).1 (upsertDevice d1 userId di).2 row hlk2]
    exact hsas _ _ _
  refine ⟨?_, ?_, ?_, ?_⟩
  · rw [hrun1]
  · rw [hrun1]
    show (createImuSession userId b env d1).status = 200
    rw [hrun2]
  · rw [hrun1]
    show (createImuSession userId b env d1).sessionId = some row.imuSessionId
    rw [hrun2]
  · rw [hrun1]
    show some row.imuSessionId = some db.nextImuSessionId
    rw [hrid]

/-- C8: when the storage connection string is missing (or SAS minting
fails) a fresh create call replies 500 with no session id in the body,
yet the database rows it wrote stay committed: the session table has
grown by the new row, the idempotency-ledger join now finds the session,
and the resulting store is byte-for-byte the one a successful call would
have produced — no compensating deletion happens. -/
theorem imu_create_storage_failure_commits (userId : String)
    (b : ImuCreateBody) (di : DeviceInfo) (env : StorageEnv) (db : Db)
    (hdi : b.deviceInfo = some di)
    (hcu : truthyStr b.clientUploadId = true)
    (hpl : truthyStr di.platform = true)
    (hplv : validPlatforms.contains (di.platform.getD "") = true)
    (hstv : ∃ v, b.startTimeUtc = some v)
    (hcf : b.coordFrame = "device" ∨ b.coordFrame = "world")
    (hwf : ∀ s ∈ db.imuSessions, s.imuSessionId < db.nextImuSessionId)
    (hnew : lookupSessionByUpload db userId (b.clientUploadId.getD "") = none)
    (hbad : env.connString = none ∨ env.mintOk = false) :
    (createImuSession userId b env db).status = 500 ∧
    (createImuSession userId b env db).sessionId = none ∧
    (createImuSession userId b env db).db.imuSessions.length =
      db.imuSessions.length + 1 ∧
    (lookupSessionByUpload (createImuSession userId b env db).db userId
      (b.clientUploadId.getD "")).isSome = true ∧
    ∀ env' : StorageEnv, ¬ env'.connString = none → env'.mintOk = true →
      (createImuSession userId b env' db).db =
        (createImuSession userId b env db).db := by
  obtain ⟨stv, hstv⟩ := hstv
  have hsasBad : ∀ (d : Db) (idn c : Nat),
      finishWithSas env d idn c = ⟨500, d, none⟩ := by
    intro d idn c
    unfold finishWithSas
    rcases hbad with h | h
    · rw [if_pos h]
    · by_cases hc : env.connString = none
      · rw [if_pos hc]
      · rw [if_neg hc, if_pos (by simp [h])]
  obtain ⟨d1, row, hrunAll, hS, hC, hrid, hru, hb⟩ :=
    createImuSession_fresh_spec userId b di db stv hdi hcu hpl hplv hstv
      hcf hwf hnew
  have hrun1 : createImuSession userId b env db = ⟨500, d1, none⟩ := by
    rw [hrunAll env, hsasBad]
  refine ⟨?_, ?_, ?_, ?_, ?_⟩
  · rw [hrun1]
  · rw [hrun1]
  · rw [hrun1]
    show d1.imuSessions.length = db.imuSessions.length + 1
    rw [hS]
    simp
  · rw [hrun1]
    show (lookupSessionByUpload d1 userId (b.clientUploadId.getD "")).isSome
      = true
    rw [lookupSessionByUpload_after_insert db userId
      (b.clientUploadId.getD "") row row.imuSessionId d1 hnew rfl hru hb hS hC]
    rfl
  · intro env' he1 he2
    have hsas' : finishWithSas env' d1 row.imuSessionId 201 =
        ⟨201, d1, some row.imuSessionId⟩ := by
      simp [finishWithSas, he1, he2]
    rw [hrun1, hrunAll env', hsas']

/-- C2: a finalize call on an already-finalized session (owned by the
caller) replies 200 with totals recomputed from the file rows already
registered for that session, and performs no writes at all: the store is
returned unchanged. -/
theorem finalize_replay_no_writes (userId : String) (sid : Nat)
    (b : FinalizeBody) (env : StorageEnv) (blobs : Blobs) (db : Db)
    (s : ImuSessionRow) (e d : Int)
    (hend : b.endTimeUtc = some d)
    (hs : db.imuSessions.find? (fun x => x.imuSessionId == sid) = some s)
    (hown : s.userId = userId)
    (hfin : s.endTime = some e) :
    (finalizeImuManifest userId sid b env blobs db).status = 200 ∧
    (finalizeImuManifest userId sid b env blobs db).db = db ∧
    (finalizeImuManifest userId sid b env blobs db).totalFiles =
      some (sessionFilesOf db sid).length ∧
    (finalizeImuManifest userId sid b env blobs db).totalBytes =
      sqlSum ((sessionFilesOf db sid).map (·.bytesSize)) ∧
    (finalizeImuManifest userId sid b env blobs db).totalSamples =
      sqlSum ((sessionFilesOf db sid).filterMap (·.numSamples)) := by
  refine ⟨?_, ?_, ?_, ?_, ?_⟩ <;>
    simp [finalizeImuManifest, hend, hs, hown, hfin]

/-- C3 counterexample: on a manifest whose first file has a size mismatch
against an existing blob and whose second file's blob is missing, the
handler replies 400 for the single mismatching file at once — the missing
second file is never collected or reported (`missing_files` is empty), so
size mismatches are NOT accumulated across the manifest. -/
theorem finalize_mismatch_failfast_cex :
    (finalizeImuManifest "u" 7 bodyC3 envOk blobsC3 dbC3).status = 400 ∧
    (finalizeImuManifest "u" 7 bodyC3 envOk blobsC3 dbC3).err =
      some (.sizeMismatch "a.bin") ∧
    (finalizeImuManifest "u" 7 bodyC3 envOk blobsC3 dbC3).missingFiles = [] := by
  refine ⟨?_, ?_, ?_⟩ <;> rfl

/-- The step-2 scan, on a manifest where every file carries a truthy
(non-empty) filename and no present blob has a size mismatch, collects
exactly the files whose blobs are absent and reports them together. -/
theorem verifyFiles_collects_missing (p : String) (blobs : Blobs) :
    ∀ (files : List FileInfo) (acc : List String),
      (∀ f ∈ files, truthyStr f.filename = true) →
      (∀ f ∈ files, ∀ n, f.filename = some n →
        ∀ sz, blobLookup blobs (p ++ n) = some sz →
          ¬ (truthyNat f.bytesSize = true ∧ sz ≠ f.bytesSize.getD 0)) →
      verifyFiles p blobs files acc =
        (if (acc ++ specMissingFiles p blobs files).isEmpty then .ok
         else .missingBlobs (acc ++ specMissingFiles p blobs files)) := by
  intro files
  induction files with
  | nil =>
    intro acc _ _
    simp [verifyFiles, specMissingFiles]
  | cons f rest ih =>
    intro acc hnames hnomis
    have htr := hnames f (List.mem_cons_self f rest)
    have hnames' : ∀ g ∈ rest, truthyStr g.filename = true :=
      fun g hg => hnames g (List.mem_cons_of_mem f hg)
    have hnomis' : ∀ g ∈ rest, ∀ m, g.filename = some m →
        ∀ sz, blobLookup blobs (p ++ m) = some sz →
          ¬ (truthyNat g.bytesSize = true ∧ sz ≠ g.bytesSize.getD 0) :=
      fun g hg => hnomis g (List.mem_cons_of_mem f hg)
    cases hn : f.filename with
    | none =>
      rw [hn] at htr
      exact absurd htr (by simp [truthyStr])
    | some n =>
      rw [hn] at htr
      cases hbl : blobLookup blobs (p ++ n) with
      | some sz =>
        have hok := hnomis f (List.mem_cons_self f rest) n hn sz hbl
        simp only [verifyFiles, hn, htr, eq_self_iff_true, not_true,
          if_false, Option.getD_some, hbl, if_neg hok]
        rw [ih acc hnames' hnomis']
        simp [specMissingFiles, hn, hbl]
      | none =>
        simp only [verifyFiles, hn, htr, eq_self_iff_true, not_true,
          if_false, Option.getD_some, hbl]
        rw [ih (acc ++ [n]) hnames' hnomis']
        simp [specMissingFiles, hn, hbl]

/-- C3 as amended: during a first (non-replay) finalize, missing blobs are
collected over the whole input list and reported together as one 400 (with
the store unchanged) — but only provided no file triggers the per-file
failures: a size mismatch on an existing blob (or a missing filename
field) returns a 400 for that single file immediately, without finishing
the scan. -/
theorem finalize_missing_blobs_collected (userId : String) (sid : Nat)
    (b : FinalizeBody) (env : StorageEnv) (blobs : Blobs) (db : Db)
    (s : ImuSessionRow) (d : Int)
    (hend : b.endTimeUtc = some d)
    (hs : db.imuSessions.find? (fun x => x.imuSessionId == sid) = some s)
    (hown : s.userId = userId)
    (hnotfin : s.endTime = none)
    (henv : ¬ env.connString = none)
    (hnames : ∀ f ∈ b.files, truthyStr f.filename = true)
    (hnomis : ∀ f ∈ b.files, ∀ n, f.filename = some n →
      ∀ sz, blobLookup blobs (sessPathOf userId sid ++ n) = some sz →
        ¬ (truthyNat f.bytesSize = true ∧ sz ≠ f.bytesSize.getD 0))
    (hmiss : specMissingFiles (sessPathOf userId sid) blobs b.files ≠ []) :
    (finalizeImuManifest userId sid b env blobs db).status = 400 ∧
    (finalizeImuManifest userId sid b env blobs db).missingFiles =
      specMissingFiles (sessPathOf userId sid) blobs b.files ∧
    (finalizeImuManifest userId sid b env blobs db).db = db := by
  have hv := verifyFiles_collects_missing (sessPathOf userId sid) blobs
    b.files [] hnames hnomis
  rw [List.nil_append] at hv
  have hne : (specMissingFiles (sessPathOf userId sid) blobs b.files).isEmpty
      = false := by
    simpa [List.isEmpty_iff] using hmiss
  rw [hne] at hv
  refine ⟨?_, ?_, ?_⟩ <;>
    simp [finalizeImuManifest, hend, hs, hown, hnotfin, henv, hv]

/-! ## Witnesses -/

/-- Witness for C1 at a concrete payload over the empty store. -/
theorem imu_create_idempotent_witness :
    (createImuSession "w" imuBodyW envOk {}).status = 201 ∧
    (createImuSession "w" imuBodyW envOk
      (createImuSession "w" imuBodyW envOk {}).db).status = 200 ∧
    (createImuSession "w" imuBodyW envOk
        (createImuSession "w" imuBodyW envOk {}).db).sessionId =
      (createImuSession "w" imuBodyW envOk {}).sessionId := by
  have h := imu_create_idempotent "w" imuBodyW diW envOk {} rfl (by decide)
    (by decide) (by decide) ⟨1000, rfl⟩ (Or.inl rfl) (by decide) rfl
    (by decide) rfl
  exact ⟨h.1, h.2.1, h.2.2.1⟩

/-- Witness for C8 at a concrete payload with the connection string
absent. -/
theorem imu_create_storage_failure_commits_witness :
    (createImuSession "w" imuBodyW envBad {}).status = 500 ∧
    (lookupSessionByUpload (createImuSession "w" imuBodyW envBad {}).db "w"
      (imuBodyW.clientUploadId.getD "")).isSome = true := by
  have h := imu_create_storage_failure_commits "w" imuBodyW diW envBad {}
    rfl (by decide) (by decide) (by decide) ⟨1000, rfl⟩ (Or.inl rfl)
    (by decide) rfl (Or.inl rfl)
  exact ⟨h.1, h.2.2.2.1⟩

/-- Witness for C2 at a concrete finalized session. -/
theorem finalize_replay_no_writes_witness :
    (finalizeImuManifest "u" 3 bodyW envOk [] dbFin).status = 200 ∧
    (finalizeImuManifest "u" 3 bodyW envOk [] dbFin).db = dbFin := by
  have h := finalize_replay_no_writes "u" 3 bodyW envOk [] dbFin sessFin
    50 99 rfl rfl rfl rfl
  exact ⟨h.1, h.2.1⟩

/-- Witness for C3 (amended) at a manifest whose two blobs are both
absent. -/
theorem finalize_missing_blobs_collected_witness :
    (finalizeImuManifest "u" 7 bodyC3 envOk [] dbC3).status = 400 ∧
    (finalizeImuManifest "u" 7 bodyC3 envOk [] dbC3).missingFiles =
      specMissingFiles (sessPathOf "u" 7) [] bodyC3.files := by
  have h := finalize_missing_blobs_collected "u" 7 bodyC3 envOk [] dbC3
    imuSess7 100 rfl rfl rfl rfl (by decide) (by decide)
    (by intro f hf n hn sz hsz; simp [blobLookup] at hsz) (by decide)
  exact ⟨h.1, h.2.1⟩

/-- Witness for C5 (amended) at a concrete limit of 5 over one user. -/
theorem leaderboard_limit_passthrough_witness :
    (getLeaderboard (some "total") (some 5) [activeUser]).status = 200 ∧
    (getLeaderboard (some "total") (some 5) [activeUser]).rows.length =
      min (5 : Int).toNat ([activeUser].filter (leaderFilter "total")).length :=
  leaderboard_limit_passthrough "total" 5 [activeUser] (Or.inl rfl) (by decide)

/-- Witness for C6: the day's first session with no prior-day session
resets the streak to 1 and adds the taps. -/
theorem tap_session_streak_witness :
    lookupUser (createSession "w" (some "s1") (some 5) (some 12) 10 dbW).db
        "w" =
      some { userW with totalCount := userW.totalCount + 5, streak := 1 } :=
  (tap_session_streak "w" "s1" 5 12 10 dbW userW (by decide) rfl rfl).2.2.1
    (by decide) (by decide)

/-- Witness for C7: one day after the last change the handler replies 429
and leaves the store unchanged. -/
theorem nickname_cooldown_witness :
    (updateNickname "w" (some "newnick") 86400 dbW).status = 429 ∧
    (updateNickname "w" (some "newnick") 86400 dbW).db = dbW :=
  (nickname_cooldown "w" "newnick" 86400 0 dbW userW (by decide) rfl rfl
    (by decide)).1 (by decide)

/-- Witness for C9: a zero-metric user projected onto neither board. -/
theorem leaderboard_excludes_zero_metric_witness :
    projectLeader "total" freshUser ∉
      (getLeaderboard (some "total") (some 10)
        [activeUser, freshUser]).rows :=
  (leaderboard_excludes_zero_metric "total" (some 10)
    [activeUser, freshUser] (Or.inl rfl)).2 freshUser (by decide) rfl rfl

/-- Witness for C10: a nickname change one day after account creation
with a nickname is refused with 429. -/
theorem nickname_cooldown_starts_at_creation_witness :
    (updateNickname "nu" (some "nick2") 86400
      (createUser "nu" (some "Name") (some "e@x") (some "nick1") 0 {}).db).status
      = 429 :=
  (nickname_cooldown_starts_at_creation "nu" "Name" "e@x" "nick1" "nick2"
    0 86400 {} (by decide) rfl rfl rfl (by decide) (by decide)
    (by decide)).2.1

end Dojogo
